import Mathlib

/-!
Verification of the Archon operator console's orchestration core against its
specification.  The definitions below are a shallow embedding of the Rust
source under `src/archon/src/`: model types from `models/`, the application
state and its helpers from `state/`, the configuration schema from `config/`,
and the TEA-style `App::update` function together with its task spawners from
`app.rs`.  Machine integers are modelled as `Nat` (no arithmetic in the code
can overflow a `u16`/`u32`/`u64` at the modelled operations), `Uuid` as `Nat`,
`DateTime<Utc>` timestamps as `Nat`, `HashMap` as association lists, and the
nondeterministic inputs of one `update` call (`Utc::now()`, `Uuid::new_v4()`,
the on-disk config read by `LoadConfig`) are threaded explicitly through an
`UpdateEnv` record.
-/

namespace Archon

/-! ## Models (`src/archon/src/models/`) -/

/-- `SiteStatus` from `models/site.rs`. -/
inductive SiteStatus
  | Inactive
  | Deploying
  | Running
  | Failed
  | Stopped
deriving DecidableEq, Repr

/-- `ConfigFile` from `models/site.rs`. -/
structure ConfigFile where
  name : String
  content : String
  container_path : String
deriving DecidableEq, Repr

/-- `Site` from `models/site.rs`.  `environment_vars: HashMap<String,String>`
is modelled as an association list; `created_at`/`updated_at` timestamps as
`Nat`. -/
structure Site where
  id : Nat
  name : String
  domain_id : Nat
  node_id : Nat
  docker_image : String
  environment_vars : List (String × String)
  port : Nat
  ssl_enabled : Bool
  config_files : List ConfigFile
  status : SiteStatus
  created_at : Nat
  updated_at : Nat
deriving DecidableEq, Repr

/-- `DnsRecordType` from `models/dns.rs`. -/
inductive DnsRecordType
  | A
  | AAAA
  | CNAME
  | MX
  | TXT
  | SRV
deriving DecidableEq, Repr

/-- `DnsRecord` from `models/dns.rs`. -/
structure DnsRecord where
  id : Option String
  record_type : DnsRecordType
  name : String
  value : String
  ttl : Nat
  proxied : Bool
deriving DecidableEq, Repr

/-- `DnsProvider` from `models/domain.rs`. -/
inductive DnsProvider
  | Cloudflare (api_token : String) (zone_id : String)
  | Route53 (access_key : String) (secret_key : String) (hosted_zone_id : String)
  | Manual
deriving DecidableEq, Repr

/-- `Domain` from `models/domain.rs`. -/
structure Domain where
  id : Nat
  name : String
  dns_provider : DnsProvider
  dns_records : List DnsRecord
  traefik_enabled : Bool
  created_at : Nat
deriving DecidableEq, Repr

/-- `Domain::is_manual_dns` from `models/domain.rs`. -/
def Domain.is_manual_dns (d : Domain) : Bool :=
  match d.dns_provider with
  | DnsProvider.Manual => true
  | _ => false

/-- `NodeStatus` from `models/node.rs`. -/
inductive NodeStatus
  | Unknown
  | Online
  | Offline
  | Degraded
deriving DecidableEq, Repr

/-- `DockerInfo` from `models/node.rs`. -/
structure DockerInfo where
  version : String
  containers_running : Nat
  images_count : Nat
deriving DecidableEq, Repr

/-- `TraefikInfo` from `models/node.rs`. -/
structure TraefikInfo where
  version : String
  routers_count : Nat
  services_count : Nat
deriving DecidableEq, Repr

/-- `Node` from `models/node.rs`.  `ip_address: IpAddr` is modelled as an
opaque `String`; `last_health_check` as an optional `Nat` timestamp. -/
structure Node where
  id : Nat
  name : String
  api_endpoint : String
  api_key : String
  ip_address : String
  status : NodeStatus
  docker_info : Option DockerInfo
  traefik_info : Option TraefikInfo
  last_health_check : Option Nat
deriving DecidableEq, Repr

/-- `Node::update_health` from `models/node.rs`; `Utc::now()` is passed in as
`now`. -/
def Node.update_health (n : Node) (status : NodeStatus)
    (docker_info : Option DockerInfo) (traefik_info : Option TraefikInfo)
    (now : Nat) : Node :=
  { n with
    status := status
    docker_info := docker_info
    traefik_info := traefik_info
    last_health_check := some now }

/-! ## Async operation tracking (`src/archon/src/state/async_ops.rs`) -/

/-- `OperationType` from `state/async_ops.rs`. -/
inductive OperationType
  | DeploySite (id : Nat)
  | UpdateSite (id : Nat)
  | DeleteSite (id : Nat)
  | UpdateDns (id : Nat)
  | NodeHealthCheck (id : Nat)
  | FetchNodeStats (id : Nat)
  | FetchLogs (id : Nat)
  | FetchMetrics (id : Nat)
deriving DecidableEq, Repr

/-- `AsyncStatus` from `state/async_ops.rs`. -/
inductive AsyncStatus
  | InProgress
  | Completed
  | Failed (error : String)
deriving DecidableEq, Repr

/-- `AsyncOperation` from `state/async_ops.rs`. -/
structure AsyncOperation where
  id : Nat
  operation_type : OperationType
  status : AsyncStatus
  started_at : Nat
deriving DecidableEq, Repr

/-- `AsyncOperation::complete` from `state/async_ops.rs`. -/
def AsyncOperation.complete (o : AsyncOperation) : AsyncOperation :=
  { o with status := AsyncStatus.Completed }

/-- `AsyncOperation::fail` from `state/async_ops.rs`. -/
def AsyncOperation.fail (o : AsyncOperation) (error : String) : AsyncOperation :=
  { o with status := AsyncStatus.Failed error }

/-- `AsyncOperation::is_completed` from `state/async_ops.rs`. -/
def AsyncOperation.is_completed (o : AsyncOperation) : Bool :=
  match o.status with
  | AsyncStatus.Completed => true
  | _ => false

/-- `AsyncOperation::is_failed` from `state/async_ops.rs`. -/
def AsyncOperation.is_failed (o : AsyncOperation) : Bool :=
  match o.status with
  | AsyncStatus.Failed _ => true
  | _ => false

/-- `ContainerMetrics` from `state/async_ops.rs`.  The `f64` field
`cpu_usage_percent` is modelled as an opaque `Nat` code; no logic in the core
computes with it. -/
structure ContainerMetrics where
  cpu_usage_percent : Nat
  memory_usage_mb : Nat
  memory_limit_mb : Nat
  network_rx_bytes : Nat
  network_tx_bytes : Nat
deriving DecidableEq, Repr

/-- `AsyncOperationResult` from `state/async_ops.rs`. -/
inductive AsyncOperationResult
  | SiteDeployed (site_id : Nat)
  | SiteUpdated (site_id : Nat)
  | SiteDeleted (site_id : Nat)
  | DnsSynced (domain_id : Nat) (records : List DnsRecord)
  | NodeHealth (node_id : Nat) (status : NodeStatus)
      (docker_info : Option DockerInfo) (traefik_info : Option TraefikInfo)
  | NodeStats (node_id : Nat) (docker_info : DockerInfo) (traefik_info : TraefikInfo)
  | Logs (site_id : Nat) (lines : List String)
  | Metrics (site_id : Nat) (data : ContainerMetrics)
deriving DecidableEq, Repr

/-! ## Notifications and screens -/

/-- `NotificationLevel` from `state/app_state.rs`. -/
inductive NotificationLevel
  | Info
  | Success
  | Warning
  | Error
deriving DecidableEq, Repr

/-- `Notification` from `state/app_state.rs`; the `DateTime<Utc>` timestamp is
a `Nat`. -/
structure Notification where
  message : String
  level : NotificationLevel
  timestamp : Nat
deriving DecidableEq, Repr

/-- `Screen` from `ui/router.rs`. -/
inductive Screen
  | Dashboard
  | SitesList
  | SiteCreate
  | SiteEdit (id : Nat)
  | SiteDetail (id : Nat)
  | DomainsList
  | DomainCreate
  | DomainDnsEditor (id : Nat)
  | NodesList
  | NodeCreate
  | NodeEdit (id : Nat)
  | NodeDetail (id : Nat)
  | Help
deriving DecidableEq, Repr

/-- `SelectionState` from `state/selection.rs`. -/
structure SelectionState where
  sites_list_index : Nat
  domains_list_index : Nat
  nodes_list_index : Nat
  form_field_index : Nat
  dns_records_index : Nat
deriving DecidableEq, Repr

/-- `SelectionState::default` from `state/selection.rs`. -/
def SelectionState.default : SelectionState :=
  { sites_list_index := 0
    domains_list_index := 0
    nodes_list_index := 0
    form_field_index := 0
    dns_records_index := 0 }

/-! ## Configuration schema (`src/archon/src/config/schema.rs`) -/

/-- `Settings` from `config/schema.rs`. -/
structure Settings where
  auto_save : Bool
  health_check_interval_seconds : Nat
  default_dns_ttl : Nat
  theme : String
deriving DecidableEq, Repr

/-- `Settings::default` from `config/schema.rs`. -/
def Settings.default : Settings :=
  { auto_save := true
    health_check_interval_seconds := 300
    default_dns_ttl := 300
    theme := "default" }

/-- `ArchonConfig` from `config/schema.rs`. -/
structure ArchonConfig where
  version : String
  sites : List Site
  domains : List Domain
  nodes : List Node
  settings : Settings
deriving DecidableEq, Repr

/-- The `env!("CARGO_PKG_VERSION")` string baked in at build time, modelled as
an opaque constant. -/
def cargo_pkg_version : String := "0.1.0"

/-- `ArchonConfig::default` from `config/schema.rs`. -/
def ArchonConfig.default : ArchonConfig :=
  { version := cargo_pkg_version
    sites := []
    domains := []
    nodes := []
    settings := Settings.default }

/-! ## Application state (`src/archon/src/state/app_state.rs`) -/

/-- `AppState` from `state/app_state.rs`.  `notifications: VecDeque` is a list
whose head is the front of the deque; `config_path: PathBuf` is an opaque
`Nat` key into the modelled disk. -/
structure AppState where
  sites : List Site
  domains : List Domain
  nodes : List Node
  current_screen : Screen
  previous_screen : List Screen
  selection_state : SelectionState
  pending_operations : List AsyncOperation
  notifications : List Notification
  config_path : Nat
  auto_save : Bool
  should_quit : Bool
deriving DecidableEq, Repr

/-- `AppState::navigate_to` from `state/app_state.rs`. -/
def AppState.navigate_to (s : AppState) (screen : Screen) : AppState :=
  { s with
    previous_screen := s.previous_screen ++ [s.current_screen]
    current_screen := screen }

/-- `AppState::navigate_back` from `state/app_state.rs`; `Vec::pop` takes the
last pushed screen. -/
def AppState.navigate_back (s : AppState) : AppState :=
  match s.previous_screen.getLast? with
  | Option.none => s
  | some previous =>
      { s with
        current_screen := previous
        previous_screen := s.previous_screen.dropLast }

/-- The `while self.notifications.len() > 50 { self.notifications.pop_front(); }`
loop inside `AppState::add_notification`, popping the front while the queue is
longer than 50 (structurally: pop the head while the tail still has at least
50 entries). -/
def trimNotifications : List Notification → List Notification
  | [] => []
  | n :: rest => if rest.length ≥ 50 then trimNotifications rest else n :: rest

/-- `AppState::add_notification` from `state/app_state.rs`: push back, then
keep only the last 50; `Utc::now()` is passed in as `now`. -/
def AppState.add_notification (s : AppState) (message : String)
    (level : NotificationLevel) (now : Nat) : AppState :=
  { s with
    notifications :=
      trimNotifications (s.notifications ++ [⟨message, level, now⟩]) }

/-- `AppState::dismiss_notification` from `state/app_state.rs`
(`VecDeque::pop_front`). -/
def AppState.dismiss_notification (s : AppState) : AppState :=
  { s with notifications := s.notifications.tail }

/-- `AppState::get_site` from `state/app_state.rs` (`iter().find`). -/
def AppState.get_site (s : AppState) (id : Nat) : Option Site :=
  s.sites.find? (fun x => x.id == id)

/-- `AppState::get_domain` from `state/app_state.rs`. -/
def AppState.get_domain (s : AppState) (id : Nat) : Option Domain :=
  s.domains.find? (fun x => x.id == id)

/-- `AppState::get_node` from `state/app_state.rs`. -/
def AppState.get_node (s : AppState) (id : Nat) : Option Node :=
  s.nodes.find? (fun x => x.id == id)

/-- `AppState::get_node_for_site` from `state/app_state.rs`. -/
def AppState.get_node_for_site (s : AppState) (site_id : Nat) : Option Node :=
  match s.get_site site_id with
  | Option.none => Option.none
  | some site => s.get_node site.node_id

/-- `AppState::get_domain_for_site` from `state/app_state.rs`. -/
def AppState.get_domain_for_site (s : AppState) (site_id : Nat) : Option Domain :=
  match s.get_site site_id with
  | Option.none => Option.none
  | some site => s.get_domain site.domain_id

/-- Mutation through `iter_mut().find(p)`: apply `f` to the first element
satisfying `p`, leaving the rest unchanged. -/
def updateFirst {α : Type} (p : α → Bool) (f : α → α) : List α → List α
  | [] => []
  | x :: xs => if p x then f x :: xs else x :: updateFirst p f xs

/-- `AppState::add_site` from `state/app_state.rs` (`Vec::push`, no
uniqueness check). -/
def AppState.add_site (s : AppState) (site : Site) : AppState :=
  { s with sites := s.sites ++ [site] }

/-- `AppState::remove_site` from `state/app_state.rs`
(`retain(|s| s.id != id)`). -/
def AppState.remove_site (s : AppState) (id : Nat) : AppState :=
  { s with sites := s.sites.filter (fun x => x.id != id) }

/-- `AppState::add_domain` from `state/app_state.rs`. -/
def AppState.add_domain (s : AppState) (domain : Domain) : AppState :=
  { s with domains := s.domains ++ [domain] }

/-- `AppState::remove_domain` from `state/app_state.rs`. -/
def AppState.remove_domain (s : AppState) (id : Nat) : AppState :=
  { s with domains := s.domains.filter (fun x => x.id != id) }

/-- `AppState::add_node` from `state/app_state.rs`. -/
def AppState.add_node (s : AppState) (node : Node) : AppState :=
  { s with nodes := s.nodes ++ [node] }

/-- `AppState::remove_node` from `state/app_state.rs`. -/
def AppState.remove_node (s : AppState) (id : Nat) : AppState :=
  { s with nodes := s.nodes.filter (fun x => x.id != id) }

/-- `AppState::save` from `state/app_state.rs`, split into its pure part: the
`ArchonConfig` value handed to `save_config`. -/
def AppState.save (s : AppState) : ArchonConfig :=
  { version := cargo_pkg_version
    sites := s.sites
    domains := s.domains
    nodes := s.nodes
    settings := { Settings.default with auto_save := s.auto_save } }

/-- `AppState::new` from `state/app_state.rs`, split into its pure part: the
state built from a freshly loaded `ArchonConfig`. -/
def AppState.fromConfig (config_path : Nat) (config : ArchonConfig) : AppState :=
  { sites := config.sites
    domains := config.domains
    nodes := config.nodes
    current_screen := Screen.Dashboard
    previous_screen := []
    selection_state := SelectionState.default
    pending_operations := []
    notifications := []
    config_path := config_path
    auto_save := config.settings.auto_save
    should_quit := false }

/-! ## Durable storage (`src/archon/src/config/loader.rs`)

`load_config`/`save_config` go through `std::fs` and the `toml` crate, both
external collaborators (spec section 6: durable config read/write is out of
scope, "structured text, e.g. TOML").  The transport is modelled as a
path-indexed store of `ArchonConfig` values, with the TOML encode/decode pair
assumed to reproduce the written value. -/

/-- Modelled from the spec: the file system visible to
`load_config`/`save_config` (`std::fs` and the `toml` crate, not in `src/`) as
a map from path to the stored configuration value. -/
def Disk : Type := Nat → Option ArchonConfig

/-- `save_config` from `config/loader.rs` on the modelled disk. -/
def save_config (disk : Disk) (path : Nat) (config : ArchonConfig) : Disk :=
  fun p => if p == path then some config else disk p

/-- `load_config` from `config/loader.rs` on the modelled disk: an absent file
creates and writes a default config; returns the loaded config and the
possibly written disk. -/
def load_config (disk : Disk) (path : Nat) : ArchonConfig × Disk :=
  match disk path with
  | Option.none => (ArchonConfig.default, save_config disk path ArchonConfig.default)
  | some config => (config, disk)

/-! ## Actions (`src/archon/src/events/actions.rs`) -/

/-- `Action` from `events/actions.rs`.  `Result<AsyncOperationResult, String>`
is `Except String AsyncOperationResult`. -/
inductive Action
  | NavigateTo (screen : Screen)
  | NavigateBack
  | CreateSite (site : Site)
  | UpdateSite (id : Nat) (site : Site)
  | DeleteSite (id : Nat)
  | DeploySite (id : Nat)
  | StopSite (id : Nat)
  | RestartSite (id : Nat)
  | CreateDomain (domain : Domain)
  | DeleteDomain (id : Nat)
  | AddDnsRecord (domain_id : Nat) (record : DnsRecord)
  | UpdateDnsRecord (domain_id : Nat) (index : Nat) (record : DnsRecord)
  | DeleteDnsRecord (domain_id : Nat) (index : Nat)
  | SyncDnsRecords (domain_id : Nat)
  | AddNode (node : Node)
  | UpdateNode (id : Nat) (node : Node)
  | RemoveNode (id : Nat)
  | CheckNodeHealth (id : Nat)
  | FetchNodeStats (id : Nat)
  | FetchLogs (site_id : Nat)
  | FetchMetrics (site_id : Nat)
  | SelectNext
  | SelectPrevious
  | SelectItem (index : Nat)
  | NextFormField
  | PreviousFormField
  | AsyncOperationCompleted (op_id : Nat) (result : Except String AsyncOperationResult)
  | ShowNotification (notification : Notification)
  | DismissNotification
  | SaveConfig
  | LoadConfig
  | Quit
  | None
deriving Repr

/-! ## The update function and task spawners (`src/archon/src/app.rs`)

Each `tokio::spawn` call in `app.rs` launches one background unit that later
sends exactly one `Action` back on the channel.  A spawned unit is recorded
here by its minted operation id and its target, one constructor per spawner
function. -/

/-- One background unit launched by a spawner in `app.rs`, identified by the
`Uuid::new_v4()` operation id minted for it and its target entity. -/
inductive SpawnedTask
  | DeploySiteUnit (op_id : Nat) (site_id : Nat)
  | DeleteSiteUnit (op_id : Nat) (site_id : Nat)
  | StopSiteUnit (op_id : Nat) (site_id : Nat)
  | RestartSiteUnit (op_id : Nat) (site_id : Nat)
  | SyncDnsUnit (op_id : Nat) (domain_id : Nat)
  | NodeHealthUnit (op_id : Nat) (node_id : Nat)
  | NodeStatsUnit (op_id : Nat) (node_id : Nat)
  | FetchLogsUnit (op_id : Nat) (site_id : Nat)
  | FetchMetricsUnit (op_id : Nat) (site_id : Nat)
deriving DecidableEq, Repr

/-- The outcome of one `App::update` call: the next state plus the background
units spawned during the call (`update` spawns at most one). -/
structure Step where
  state : AppState
  spawned : List SpawnedTask
deriving DecidableEq, Repr

/-- A no-effect `update` outcome: state unchanged, nothing spawned. -/
def pureStep (s : AppState) : Step :=
  { state := s, spawned := [] }

/-- The nondeterministic inputs of one `App::update` call: `Utc::now()`, the
`Uuid::new_v4()` minted by the (at most one) spawner the call reaches, and the
disk read by `LoadConfig`. -/
structure UpdateEnv where
  now : Nat
  fresh_op_id : Nat
  disk : Disk

namespace App

/-- `App::spawn_deploy_site` from `app.rs` (lines 435-474): looks up the
site, its domain and its node, returning without spawning if any is missing;
otherwise mints `op_id` and spawns the deploy unit.  NOTE: the Rust function
constructs `let mut op = AsyncOperation::new(OperationType::DeploySite(site_id));
op.id = op_id;` under the comment "Add to pending operations" but never pushes
`op` into `state.pending_operations` (it takes `&self` and drops `op`), so no
registry entry is created; the model therefore returns only the spawned
unit. -/
def spawn_deploy_site (s : AppState) (site_id : Nat) (op_id : Nat) :
    List SpawnedTask :=
  match s.get_site site_id with
  | Option.none => []
  | some _ =>
    match s.get_domain_for_site site_id with
    | Option.none => []
    | some _ =>
      match s.get_node_for_site site_id with
      | Option.none => []
      | some _ => [SpawnedTask.DeploySiteUnit op_id site_id]

/-- `App::spawn_delete_site` from `app.rs`: looks up the node for the site
(returning without spawning if missing), mints `op_id`, spawns the delete
unit.  No registry entry is created. -/
def spawn_delete_site (s : AppState) (site_id : Nat) (op_id : Nat) :
    List SpawnedTask :=
  match s.get_node_for_site site_id with
  | Option.none => []
  | some _ => [SpawnedTask.DeleteSiteUnit op_id site_id]

/-- `App::spawn_stop_site` from `app.rs`. -/
def spawn_stop_site (s : AppState) (site_id : Nat) (op_id : Nat) :
    List SpawnedTask :=
  match s.get_node_for_site site_id with
  | Option.none => []
  | some _ => [SpawnedTask.StopSiteUnit op_id site_id]

/-- `App::spawn_restart_site` from `app.rs`. -/
def spawn_restart_site (s : AppState) (site_id : Nat) (op_id : Nat) :
    List SpawnedTask :=
  match s.get_node_for_site site_id with
  | Option.none => []
  | some _ => [SpawnedTask.RestartSiteUnit op_id site_id]

/-- `App::spawn_sync_dns` from `app.rs` (lines 549-579): looks up the domain
(returning if missing), short-circuits without spawning when the domain's DNS
is manual, otherwise mints `op_id` and spawns the sync unit.  No registry
entry is created. -/
def spawn_sync_dns (s : AppState) (domain_id : Nat) (op_id : Nat) :
    List SpawnedTask :=
  match s.get_domain domain_id with
  | Option.none => []
  | some domain =>
    if domain.is_manual_dns then []
    else [SpawnedTask.SyncDnsUnit op_id domain_id]

/-- `App::spawn_node_health_check` from `app.rs`. -/
def spawn_node_health_check (s : AppState) (node_id : Nat) (op_id : Nat) :
    List SpawnedTask :=
  match s.get_node node_id with
  | Option.none => []
  | some _ => [SpawnedTask.NodeHealthUnit op_id node_id]

/-- `App::spawn_fetch_node_stats` from `app.rs`. -/
def spawn_fetch_node_stats (s : AppState) (node_id : Nat) (op_id : Nat) :
    List SpawnedTask :=
  match s.get_node node_id with
  | Option.none => []
  | some _ => [SpawnedTask.NodeStatsUnit op_id node_id]

/-- `App::spawn_fetch_logs` from `app.rs`. -/
def spawn_fetch_logs (s : AppState) (site_id : Nat) (op_id : Nat) :
    List SpawnedTask :=
  match s.get_node_for_site site_id with
  | Option.none => []
  | some _ => [SpawnedTask.FetchLogsUnit op_id site_id]

/-- `App::spawn_fetch_metrics` from `app.rs`. -/
def spawn_fetch_metrics (s : AppState) (site_id : Nat) (op_id : Nat) :
    List SpawnedTask :=
  match s.get_node_for_site site_id with
  | Option.none => []
  | some _ => [SpawnedTask.FetchMetricsUnit op_id site_id]

/-- `App::handle_async_result` from `app.rs` (lines 377-432): the per-kind
merge of a successful operation result into the inventory.  `get_*_mut`
followed by a field assignment is `updateFirst` on the matching collection;
the final wildcard arm (Logs/Metrics, surfaced to the UI only) leaves the
state unchanged. -/
def handle_async_result (s : AppState) (result : AsyncOperationResult)
    (now : Nat) : AppState :=
  match result with
  | AsyncOperationResult.SiteDeployed site_id =>
      let s1 := { s with
        sites := updateFirst (fun x => x.id == site_id)
          (fun site => { site with status := SiteStatus.Running }) s.sites }
      s1.add_notification "Site deployed successfully" NotificationLevel.Success now
  | AsyncOperationResult.SiteUpdated site_id =>
      let s1 := { s with
        sites := updateFirst (fun x => x.id == site_id)
          (fun site => { site with status := SiteStatus.Running }) s.sites }
      s1.add_notification "Site updated successfully" NotificationLevel.Success now
  | AsyncOperationResult.SiteDeleted site_id =>
      let s1 := s.remove_site site_id
      s1.add_notification "Site deleted successfully" NotificationLevel.Success now
  | AsyncOperationResult.DnsSynced domain_id records =>
      let s1 := { s with
        domains := updateFirst (fun x => x.id == domain_id)
          (fun domain => { domain with dns_records := records }) s.domains }
      s1.add_notification "DNS records synced successfully" NotificationLevel.Success now
  | AsyncOperationResult.NodeHealth node_id status docker_info traefik_info =>
      { s with
        nodes := updateFirst (fun x => x.id == node_id)
          (fun node => node.update_health status docker_info traefik_info now) s.nodes }
  | AsyncOperationResult.NodeStats node_id docker_info traefik_info =>
      { s with
        nodes := updateFirst (fun x => x.id == node_id)
          (fun node => { node with
            docker_info := some docker_info
            traefik_info := some traefik_info }) s.nodes }
  | _ => s

/-- `App::update` from `app.rs` (lines 71-375): the sole mutator, applying
one `Action` to the state.  Side effects other than spawning (writing the
config on auto-save / `SaveConfig` / `Quit`) do not change `AppState` and are
not recorded in the `Step`. -/
def update (s : AppState) (action : Action) (env : UpdateEnv) : Step :=
  match action with
  | Action.NavigateTo screen => pureStep (s.navigate_to screen)
  | Action.NavigateBack => pureStep s.navigate_back
  | Action.CreateSite site =>
      let site_id := site.id
      let s1 := s.add_site site
      let s2 := s1.add_notification "Site created successfully"
        NotificationLevel.Success env.now
      { state := s2, spawned := spawn_deploy_site s2 site_id env.fresh_op_id }
  | Action.UpdateSite site_id updated_site =>
      match s.get_site site_id with
      | Option.none => pureStep s
      | some _ =>
        let s1 := { s with
          sites := updateFirst (fun x => x.id == site_id)
            (fun _ => updated_site) s.sites }
        let s2 := s1.add_notification "Site updated successfully"
          NotificationLevel.Success env.now
        { state := s2, spawned := spawn_deploy_site s2 site_id env.fresh_op_id }
  | Action.DeleteSite site_id =>
      { state := s, spawned := spawn_delete_site s site_id env.fresh_op_id }
  | Action.DeploySite site_id =>
      { state := s, spawned := spawn_deploy_site s site_id env.fresh_op_id }
  | Action.StopSite site_id =>
      { state := s, spawned := spawn_stop_site s site_id env.fresh_op_id }
  | Action.RestartSite site_id =>
      { state := s, spawned := spawn_restart_site s site_id env.fresh_op_id }
  | Action.CreateDomain domain =>
      let s1 := s.add_domain domain
      pureStep (s1.add_notification "Domain created successfully"
        NotificationLevel.Success env.now)
  | Action.DeleteDomain domain_id =>
      let s1 := s.remove_domain domain_id
      pureStep (s1.add_notification "Domain deleted successfully"
        NotificationLevel.Success env.now)
  | Action.AddDnsRecord domain_id record =>
      match s.get_domain domain_id with
      | Option.none => pureStep s
      | some _ =>
        let s1 := { s with
          domains := updateFirst (fun x => x.id == domain_id)
            (fun domain => { domain with dns_records := domain.dns_records ++ [record] })
            s.domains }
        pureStep (s1.add_notification "DNS record added"
          NotificationLevel.Success env.now)
  | Action.UpdateDnsRecord domain_id index record =>
      match s.get_domain domain_id with
      | Option.none => pureStep s
      | some domain =>
        if index < domain.dns_records.length then
          let s1 := { s with
            domains := updateFirst (fun x => x.id == domain_id)
              (fun d => { d with dns_records := d.dns_records.set index record })
              s.domains }
          pureStep (s1.add_notification "DNS record updated"
            NotificationLevel.Success env.now)
        else pureStep s
  | Action.DeleteDnsRecord domain_id index =>
      match s.get_domain domain_id with
      | Option.none => pureStep s
      | some domain =>
        if index < domain.dns_records.length then
          let s1 := { s with
            domains := updateFirst (fun x => x.id == domain_id)
              (fun d => { d with dns_records := d.dns_records.eraseIdx index })
              s.domains }
          pureStep (s1.add_notification "DNS record deleted"
            NotificationLevel.Success env.now)
        else pureStep s
  | Action.SyncDnsRecords domain_id =>
      { state := s, spawned := spawn_sync_dns s domain_id env.fresh_op_id }
  | Action.AddNode node =>
      let s1 := s.add_node node
      pureStep (s1.add_notification "Node added successfully"
        NotificationLevel.Success env.now)
  | Action.UpdateNode node_id updated_node =>
      match s.get_node node_id with
      | Option.none => pureStep s
      | some _ =>
        let s1 := { s with
          nodes := updateFirst (fun x => x.id == node_id)
            (fun _ => updated_node) s.nodes }
        pureStep (s1.add_notification "Node updated successfully"
          NotificationLevel.Success env.now)
  | Action.RemoveNode node_id =>
      let s1 := s.remove_node node_id
      pureStep (s1.add_notification "Node removed successfully"
        NotificationLevel.Success env.now)
  | Action.CheckNodeHealth node_id =>
      { state := s, spawned := spawn_node_health_check s node_id env.fresh_op_id }
  | Action.FetchNodeStats node_id =>
      { state := s, spawned := spawn_fetch_node_stats s node_id env.fresh_op_id }
  | Action.FetchLogs site_id =>
      { state := s, spawned := spawn_fetch_logs s site_id env.fresh_op_id }
  | Action.FetchMetrics site_id =>
      { state := s, spawned := spawn_fetch_metrics s site_id env.fresh_op_id }
  | Action.AsyncOperationCompleted op_id result =>
      match s.pending_operations.find? (fun o => o.id == op_id) with
      | Option.none => pureStep s
      | some _ =>
        match result with
        | Except.ok async_result =>
            let s1 := { s with
              pending_operations := updateFirst (fun o => o.id == op_id)
                AsyncOperation.complete s.pending_operations }
            pureStep (handle_async_result s1 async_result env.now)
        | Except.error error =>
            let s1 := { s with
              pending_operations := updateFirst (fun o => o.id == op_id)
                (fun o => o.fail error) s.pending_operations }
            pureStep (s1.add_notification ("Operation failed: " ++ error)
              NotificationLevel.Error env.now)
  | Action.ShowNotification notification =>
      { s with notifications := s.notifications ++ [notification] } |> pureStep
  | Action.DismissNotification => pureStep s.dismiss_notification
  | Action.SaveConfig =>
      pureStep (s.add_notification "Configuration saved"
        NotificationLevel.Success env.now)
  | Action.LoadConfig =>
      let new_state := AppState.fromConfig s.config_path
        (load_config env.disk s.config_path).1
      pureStep (new_state.add_notification "Configuration reloaded"
        NotificationLevel.Info env.now)
  | Action.Quit => pureStep { s with should_quit := true }
  | Action.SelectNext =>
      match s.current_screen with
      | Screen.SitesList =>
          if s.sites.isEmpty then pureStep s
          else pureStep { s with selection_state := { s.selection_state with
            sites_list_index :=
              (s.selection_state.sites_list_index + 1) % s.sites.length } }
      | Screen.DomainsList =>
          if s.domains.isEmpty then pureStep s
          else pureStep { s with selection_state := { s.selection_state with
            domains_list_index :=
              (s.selection_state.domains_list_index + 1) % s.domains.length } }
      | Screen.NodesList =>
          if s.nodes.isEmpty then pureStep s
          else pureStep { s with selection_state := { s.selection_state with
            nodes_list_index :=
              (s.selection_state.nodes_list_index + 1) % s.nodes.length } }
      | _ => pureStep s
  | Action.SelectPrevious =>
      match s.current_screen with
      | Screen.SitesList =>
          if s.sites.isEmpty then pureStep s
          else
            let len := s.sites.length
            pureStep { s with selection_state := { s.selection_state with
              sites_list_index :=
                (s.selection_state.sites_list_index + len - 1) % len } }
      | Screen.DomainsList =>
          if s.domains.isEmpty then pureStep s
          else
            let len := s.domains.length
            pureStep { s with selection_state := { s.selection_state with
              domains_list_index :=
                (s.selection_state.domains_list_index + len - 1) % len } }
      | Screen.NodesList =>
          if s.nodes.isEmpty then pureStep s
          else
            let len := s.nodes.length
            pureStep { s with selection_state := { s.selection_state with
              nodes_list_index :=
                (s.selection_state.nodes_list_index + len - 1) % len } }
      | _ => pureStep s
  | _ => pureStep s

end App

/-- Fold a list of actions through `App.update`, keeping only the state (the
Event Loop applying queued actions in order). -/
def runActions (env : UpdateEnv) (s : AppState) : List Action → AppState
  | [] => s
  | a :: rest => runActions env (App.update s a env).state rest

/-! ## Concrete fixtures used by witnesses and counterexamples -/

/-- An empty modelled disk. -/
def emptyDisk : Disk := fun _ => Option.none

/-- A fixed update environment for concrete evaluations. -/
def testEnv : UpdateEnv := { now := 7, fresh_op_id := 99, disk := emptyDisk }

/-- A concrete site (id 1) referencing domain 2 and node 3. -/
def baseSite : Site :=
  { id := 1
    name := "blog"
    domain_id := 2
    node_id := 3
    docker_image := "nginx"
    environment_vars := []
    port := 80
    ssl_enabled := true
    config_files := []
    status := SiteStatus.Stopped
    created_at := 0
    updated_at := 0 }

/-- A concrete Cloudflare-backed domain (id 2). -/
def baseDomain : Domain :=
  { id := 2
    name := "example.com"
    dns_provider := DnsProvider.Cloudflare "token" "zone"
    dns_records := []
    traefik_enabled := true
    created_at := 0 }

/-- A concrete manually managed domain (id 4). -/
def manualDomain : Domain :=
  { id := 4
    name := "manual.org"
    dns_provider := DnsProvider.Manual
    dns_records := []
    traefik_enabled := true
    created_at := 0 }

/-- A concrete node (id 3). -/
def baseNode : Node :=
  { id := 3
    name := "node-a"
    api_endpoint := "http://n"
    api_key := "key"
    ip_address := "10.0.0.1"
    status := NodeStatus.Online
    docker_info := Option.none
    traefik_info := Option.none
    last_health_check := Option.none }

/-- A concrete state holding site 1, domains 2 and 4, node 3, with an empty
operation registry and empty notification queue. -/
def baseState : AppState :=
  { sites := [baseSite]
    domains := [baseDomain, manualDomain]
    nodes := [baseNode]
    current_screen := Screen.Dashboard
    previous_screen := []
    selection_state := SelectionState.default
    pending_operations := []
    notifications := []
    config_path := 0
    auto_save := false
    should_quit := false }

/-- A registry entry for operation 7 that is already terminal (Completed). -/
def completedOp : AsyncOperation :=
  { id := 7
    operation_type := OperationType.DeploySite 1
    status := AsyncStatus.Completed
    started_at := 0 }

/-- `baseState` with operation 7 already recorded as Completed. -/
def c2State : AppState :=
  { baseState with pending_operations := [completedOp] }

/-- A second concrete site (id 9) on the same domain and node. -/
def secondSite : Site := { baseSite with id := 9 }

/-- A concrete site (id 5) whose id is fresh for `baseState`. -/
def freshSite : Site := { baseSite with id := 5 }

/-- `baseState` with two sites, viewing the sites list. -/
def c7State : AppState :=
  { baseState with
    sites := [baseSite, secondSite]
    current_screen := Screen.SitesList }

/-- `baseState` with no domains, viewing the domains list. -/
def c7EmptyState : AppState :=
  { baseState with
    domains := []
    current_screen := Screen.DomainsList }

/-- Fifty distinct concrete notifications. -/
def fiftyNotifs : List Notification :=
  (List.range 50).map (fun i => ⟨"n", NotificationLevel.Info, i⟩)

/-- `baseState` with a full (length-50) notification queue. -/
def c5State : AppState :=
  { baseState with notifications := fiftyNotifs }

/-- Apply a sequence of `AppState::add_notification` calls (message, level,
`Utc::now()` value) in order. -/
def runAddNotifications (s : AppState) :
    List (String × NotificationLevel × Nat) → AppState
  | [] => s
  | (m, lv, now) :: rest => runAddNotifications (s.add_notification m lv now) rest

/-- Fifty-one notification emissions with distinct timestamps. -/
def fiftyOneMsgs : List (String × NotificationLevel × Nat) :=
  (List.range 51).map (fun i => ("n", NotificationLevel.Info, i))

/-- Uniqueness of ids within each entity collection (spec section 3
invariant). -/
abbrev idsUnique (s : AppState) : Prop :=
  (s.sites.map Site.id).Nodup ∧ (s.domains.map Domain.id).Nodup
    ∧ (s.nodes.map Node.id).Nodup

/-- The CRUD intents of the vocabulary: create/update/delete of Site, Domain,
Node and DNS-record add/update/delete (spec section 4.1). -/
def isCrudIntent : Action → Bool
  | Action.CreateSite _ => true
  | Action.UpdateSite _ _ => true
  | Action.DeleteSite _ => true
  | Action.CreateDomain _ => true
  | Action.DeleteDomain _ => true
  | Action.AddDnsRecord _ _ => true
  | Action.UpdateDnsRecord _ _ _ => true
  | Action.DeleteDnsRecord _ _ => true
  | Action.AddNode _ => true
  | Action.UpdateNode _ _ => true
  | Action.RemoveNode _ => true
  | _ => false

/-- Side conditions under which a CRUD intent preserves id-uniqueness: a
create carries an id absent from its collection, and an update's replacement
entity keeps the target id. -/
def crudSafe (s : AppState) : Action → Bool
  | Action.CreateSite site => !((s.sites.map Site.id).contains site.id)
  | Action.UpdateSite site_id site => site.id == site_id
  | Action.CreateDomain domain => !((s.domains.map Domain.id).contains domain.id)
  | Action.AddNode node => !((s.nodes.map Node.id).contains node.id)
  | Action.UpdateNode node_id node => node.id == node_id
  | _ => true

/-! ## Helper lemmas -/

/-- `updateFirst` does not change the image of the list under `g` when the
applied mutation preserves `g` on every element matching `p`. -/
theorem updateFirst_map {α β : Type} (g : α → β) (p : α → Bool) (f : α → α)
    (h : ∀ x, p x = true → g (f x) = g x) :
    ∀ l : List α, (updateFirst p f l).map g = l.map g
  | [] => rfl
  | x :: xs => by
    by_cases hx : p x = true
    · simp [updateFirst, hx, h x hx]
    · simp [updateFirst, hx, updateFirst_map g p f h xs]

/-- `find?` after `updateFirst` returns the mutated first match, provided the
mutation keeps the predicate true. -/
theorem find?_updateFirst {α : Type} (p : α → Bool) (f : α → α)
    (hf : ∀ y, p y = true → p (f y) = true) :
    ∀ (l : List α) (x : α), l.find? p = some x →
      (updateFirst p f l).find? p = some (f x)
  | [], x, hfind => by simp at hfind
  | a :: rest, x, hfind => by
    by_cases h : p a = true
    · rw [List.find?_cons_of_pos _ h] at hfind
      injection hfind with hax
      subst hax
      simp [updateFirst, h, List.find?_cons_of_pos _ (hf a h)]
    · rw [List.find?_cons_of_neg _ h] at hfind
      have hfa : p a = false := by
        cases hpa : p a
        · rfl
        · exact absurd hpa h
      simp [updateFirst, hfa,
        List.find?_cons_of_neg _ h, find?_updateFirst p f hf rest x hfind]

/-- Pushing a fresh element keeps a list duplicate-free. -/
theorem nodup_push {α : Type} (l : List α) (x : α)
    (h : l.Nodup) (hx : x ∉ l) : (l ++ [x]).Nodup := by
  simp [List.nodup_append, h, hx]

/-- Filtering preserves duplicate-freeness of the mapped list. -/
theorem nodup_map_filter {α β : Type} (g : α → β) (q : α → Bool) (l : List α)
    (h : (l.map g).Nodup) : ((l.filter q).map g).Nodup :=
  h.sublist (List.Sublist.map g (List.filter_sublist l))

/-- `updateFirst` with a `g`-preserving mutation keeps the mapped list
duplicate-free. -/
theorem nodup_map_updateFirst {α β : Type} (g : α → β) (p : α → Bool) (f : α → α)
    (hf : ∀ y, p y = true → g (f y) = g y) (l : List α)
    (h : (l.map g).Nodup) : ((updateFirst p f l).map g).Nodup := by
  rw [updateFirst_map g p f hf]
  exact h

/-- `trimNotifications` leaves a short enough queue unchanged. -/
theorem trimNotifications_eq_self :
    ∀ l : List Notification, l.length ≤ 50 → trimNotifications l = l
  | [], _ => rfl
  | n :: rest, h => by
    have hlt : ¬ rest.length ≥ 50 := by
      simp only [List.length_cons] at h
      omega
    simp [trimNotifications, hlt]

/-- `trimNotifications` is dropping from the front down to length 50. -/
theorem trimNotifications_eq_drop :
    ∀ l : List Notification, trimNotifications l = l.drop (l.length - 50)
  | [] => rfl
  | n :: rest => by
    by_cases h : rest.length ≥ 50
    · have hsucc : (n :: rest).length - 50 = (rest.length - 50) + 1 := by
        simp only [List.length_cons]
        omega
      rw [trimNotifications, if_pos h, trimNotifications_eq_drop rest, hsucc,
        List.drop_succ_cons]
    · have hle : (n :: rest).length ≤ 50 := by
        simp only [List.length_cons]
        omega
      rw [trimNotifications_eq_self _ hle]
      have : (n :: rest).length - 50 = 0 := by omega
      rw [this, List.drop_zero]

/-! ## Claims -/

/-- C1: the claim states that every async-triggering intent appends an
InProgress Registry entry for the fresh operation id to
`state.pending_operations` before the background unit is spawned.  The code
never registers any operation: `spawn_deploy_site` constructs the
`AsyncOperation` under the comment "Add to pending operations" but drops it
(app.rs lines 455-457), and the other spawners construct none.  Evaluated at
a deployable site, the deploy intent spawns the unit with the minted id 99
while the registry stays empty, so the resulting completion action for id 99
finds no entry and is silently dropped, leaving the state unchanged (the site
never becomes Running). -/
theorem C1_registration_happens_before_spawn_fails :
    (App.update baseState (Action.DeploySite 1) testEnv).spawned
        = [SpawnedTask.DeploySiteUnit 99 1]
    ∧ (App.update baseState (Action.DeploySite 1) testEnv).state.pending_operations
        = []
    ∧ App.update baseState
        (Action.AsyncOperationCompleted 99
          (Except.ok (AsyncOperationResult.SiteDeployed 1))) testEnv
        = pureStep baseState := by
  decide

/-- C3 counterexample: applying the delete-site intent for site 1, which is
present in `baseState`, leaves the sites collection unchanged (site 1 is
still there) and merely spawns the background delete unit — the claim that
the Site is removed immediately at delete-request time is false. -/
theorem C3_counterexample_delete_is_not_optimistic :
    (App.update baseState (Action.DeleteSite 1) testEnv).state.sites = [baseSite]
    ∧ baseSite.id = 1
    ∧ (App.update baseState (Action.DeleteSite 1) testEnv).spawned
        = [SpawnedTask.DeleteSiteUnit 99 1] := by
  decide

/-- C3 amended: a delete-site intent changes no state at all (it only spawns
the background delete), and the Site is removed from the sites collection
only when the `SiteDeleted` completion result is merged by
`handle_async_result`. -/
theorem C3_amended_delete_on_confirmation (s : AppState) (site_id : Nat)
    (env : UpdateEnv) :
    (App.update s (Action.DeleteSite site_id) env).state = s
    ∧ (App.handle_async_result s (AsyncOperationResult.SiteDeleted site_id)
        env.now).sites = s.sites.filter (fun x => x.id != site_id) := by
  constructor
  · rfl
  · rfl

/-- C9: a sync-DNS intent on a domain whose DNS provider is Manual is an
explicit short-circuit: no background unit is spawned, the state is untouched
and no notification (in particular no error) is appended. -/
theorem C9_manual_dns_sync_short_circuits (s : AppState) (domain_id : Nat)
    (env : UpdateEnv) (d : Domain)
    (hfind : s.get_domain domain_id = some d)
    (hmanual : d.is_manual_dns = true) :
    App.update s (Action.SyncDnsRecords domain_id) env = pureStep s := by
  simp [App.update, App.spawn_sync_dns, hfind, hmanual, pureStep]

/-- C9 witness: domain 4 of `baseState` is manually managed, and the
sync-DNS intent for it is a complete no-op. -/
theorem C9_manual_dns_sync_short_circuits_witness :
    App.update baseState (Action.SyncDnsRecords 4) testEnv = pureStep baseState :=
  C9_manual_dns_sync_short_circuits baseState 4 testEnv manualDomain
    (by decide) (by decide)

/-- C10: an `OperationCompleted` action whose operation id matches no entry in
`pending_operations` leaves the entire state unchanged and spawns nothing —
even when the carried result is an error, no Error notification is
appended. -/
theorem C10_unknown_completion_is_noop (s : AppState) (op_id : Nat)
    (result : Except String AsyncOperationResult) (env : UpdateEnv)
    (hfind : s.pending_operations.find? (fun o => o.id == op_id) = Option.none) :
    App.update s (Action.AsyncOperationCompleted op_id result) env = pureStep s := by
  simp [App.update, hfind]

/-- C10 witness: `baseState` has an empty registry, so an error completion for
operation 99 changes nothing. -/
theorem C10_unknown_completion_is_noop_witness :
    App.update baseState
      (Action.AsyncOperationCompleted 99 (Except.error "boom")) testEnv
      = pureStep baseState :=
  C10_unknown_completion_is_noop baseState 99 (Except.error "boom") testEnv
    (by decide)

/-- C2 counterexample: in `c2State` the registry entry for operation 7 is
already terminal (Completed), yet delivering `OperationCompleted(7,
Ok(SiteDeployed(1)))` re-applies the merge: site 1 flips from Stopped to
Running (and a notification is appended), contradicting the claim that such a
delivery changes neither the registry entry nor the inventory. -/
theorem C2_counterexample_terminal_delivery_not_ignored :
    completedOp.is_completed = true
    ∧ c2State.pending_operations.find? (fun o => o.id == 7) = some completedOp
    ∧ (c2State.get_site 1).map Site.status = some SiteStatus.Stopped
    ∧ ((App.update c2State
        (Action.AsyncOperationCompleted 7
          (Except.ok (AsyncOperationResult.SiteDeployed 1))) testEnv).state.get_site 1).map
        Site.status = some SiteStatus.Running := by
  decide

/-- C2 amended: the `AsyncOperationCompleted` arm has no idempotency guard —
whenever the registry holds an entry with the delivered id, including one
already in a terminal status, an `Ok(SiteDeployed)` delivery re-marks that
entry Completed and re-applies the merge: the referenced Site's status is set
to Running again and another success notification is appended. -/
theorem C2_amended_duplicate_delivery_reapplies (s : AppState)
    (op_id site_id : Nat) (env : UpdateEnv) (op : AsyncOperation) (site : Site)
    (hfind : s.pending_operations.find? (fun o => o.id == op_id) = some op)
    (_hterm : op.is_completed = true ∨ op.is_failed = true)
    (hsite : s.get_site site_id = some site) :
    (App.update s (Action.AsyncOperationCompleted op_id
        (Except.ok (AsyncOperationResult.SiteDeployed site_id))) env).state.get_site
        site_id = some { site with status := SiteStatus.Running }
    ∧ (App.update s (Action.AsyncOperationCompleted op_id
        (Except.ok (AsyncOperationResult.SiteDeployed site_id))) env).state.notifications
      = trimNotifications (s.notifications ++
          [⟨"Site deployed successfully", NotificationLevel.Success, env.now⟩])
    ∧ (App.update s (Action.AsyncOperationCompleted op_id
        (Except.ok (AsyncOperationResult.SiteDeployed site_id))) env).state.pending_operations.find?
        (fun o => o.id == op_id) = some op.complete := by
  have hsite2 : s.sites.find? (fun x => x.id == site_id) = some site := hsite
  refine ⟨?_, ?_, ?_⟩
  · simp only [App.update, hfind, App.handle_async_result,
      AppState.add_notification, AppState.get_site, pureStep]
    exact find?_updateFirst (fun x => x.id == site_id)
      (fun site => { site with status := SiteStatus.Running })
      (fun y hy => hy) s.sites site hsite2
  · simp only [App.update, hfind, App.handle_async_result,
      AppState.add_notification, pureStep]
  · simp only [App.update, hfind, App.handle_async_result,
      AppState.add_notification, pureStep]
    exact find?_updateFirst (fun o => o.id == op_id) AsyncOperation.complete
      (fun y hy => hy) s.pending_operations op hfind

/-- C2 amended witness: the amended behaviour evaluated on `c2State`, whose
entry for operation 7 is terminal. -/
theorem C2_amended_duplicate_delivery_reapplies_witness :
    (App.update c2State (Action.AsyncOperationCompleted 7
        (Except.ok (AsyncOperationResult.SiteDeployed 1))) testEnv).state.get_site 1
      = some { baseSite with status := SiteStatus.Running }
    ∧ (App.update c2State (Action.AsyncOperationCompleted 7
        (Except.ok (AsyncOperationResult.SiteDeployed 1))) testEnv).state.notifications
      = trimNotifications (c2State.notifications ++
          [⟨"Site deployed successfully", NotificationLevel.Success, testEnv.now⟩])
    ∧ (App.update c2State (Action.AsyncOperationCompleted 7
        (Except.ok (AsyncOperationResult.SiteDeployed 1))) testEnv).state.pending_operations.find?
        (fun o => o.id == 7) = some completedOp.complete :=
  C2_amended_duplicate_delivery_reapplies c2State 7 1 testEnv completedOp baseSite
    (by decide) (Or.inl (by decide)) (by decide)

/-- C4 counterexample: in `baseState` (site 1 present, node present, empty
queue) the delete-site intent appends no notification at all, and an
update-site intent for the absent id 5 also appends none — contradicting the
claim that every CRUD intent appends exactly one notification. -/
theorem C4_counterexample_delete_site_appends_none :
    (App.update baseState (Action.DeleteSite 1) testEnv).state.notifications = []
    ∧ (App.update baseState (Action.UpdateSite 5 freshSite) testEnv).state.notifications
        = [] := by
  decide

/-- The queue after one `add_notification` push onto a queue shorter than 50
is one entry longer. -/
theorem trimNotifications_push_length (q : List Notification) (n : Notification)
    (h : q.length < 50) :
    (trimNotifications (q ++ [n])).length = q.length + 1 := by
  rw [trimNotifications_eq_self]
  · simp
  · simp
    omega

/-- C4 amended: create-site, create-domain, add-node, delete-domain and
remove-node intents append exactly one notification (delete-domain and
remove-node do so even when the target id is absent); update-site,
update-node and the DNS-record intents append exactly one notification when
their target exists (and, for record update/delete, the index is in range)
and none otherwise; the delete-site intent appends no notification at all
(its notification is emitted only by the later completion). -/
theorem C4_amended_notification_per_intent (s : AppState) (env : UpdateEnv)
    (site : Site) (domain : Domain) (node : Node) (record : DnsRecord)
    (i index : Nat) (h50 : s.notifications.length < 50) :
    ((App.update s (Action.CreateSite site) env).state.notifications.length
        = s.notifications.length + 1)
    ∧ ((App.update s (Action.CreateDomain domain) env).state.notifications.length
        = s.notifications.length + 1)
    ∧ ((App.update s (Action.AddNode node) env).state.notifications.length
        = s.notifications.length + 1)
    ∧ ((App.update s (Action.DeleteDomain i) env).state.notifications.length
        = s.notifications.length + 1)
    ∧ ((App.update s (Action.RemoveNode i) env).state.notifications.length
        = s.notifications.length + 1)
    ∧ ((App.update s (Action.DeleteSite i) env).state.notifications
        = s.notifications)
    ∧ (s.get_site i = Option.none →
        (App.update s (Action.UpdateSite i site) env).state.notifications
          = s.notifications)
    ∧ (s.get_site i ≠ Option.none →
        (App.update s (Action.UpdateSite i site) env).state.notifications.length
          = s.notifications.length + 1)
    ∧ (s.get_node i = Option.none →
        (App.update s (Action.UpdateNode i node) env).state.notifications
          = s.notifications)
    ∧ (s.get_node i ≠ Option.none →
        (App.update s (Action.UpdateNode i node) env).state.notifications.length
          = s.notifications.length + 1)
    ∧ (s.get_domain i = Option.none →
        (App.update s (Action.AddDnsRecord i record) env).state.notifications
          = s.notifications)
    ∧ (s.get_domain i ≠ Option.none →
        (App.update s (Action.AddDnsRecord i record) env).state.notifications.length
          = s.notifications.length + 1)
    ∧ (∀ d, s.get_domain i = some d → index < d.dns_records.length →
        (App.update s (Action.UpdateDnsRecord i index record) env).state.notifications.length
          = s.notifications.length + 1)
    ∧ (∀ d, s.get_domain i = some d → ¬ index < d.dns_records.length →
        (App.update s (Action.UpdateDnsRecord i index record) env).state.notifications
          = s.notifications)
    ∧ (∀ d, s.get_domain i = some d → index < d.dns_records.length →
        (App.update s (Action.DeleteDnsRecord i index) env).state.notifications.length
          = s.notifications.length + 1)
    ∧ (∀ d, s.get_domain i = some d → ¬ index < d.dns_records.length →
        (App.update s (Action.DeleteDnsRecord i index) env).state.notifications
          = s.notifications)
    ∧ (s.get_domain i = Option.none →
        (App.update s (Action.UpdateDnsRecord i index record) env).state.notifications
          = s.notifications)
    ∧ (s.get_domain i = Option.none →
        (App.update s (Action.DeleteDnsRecord i index) env).state.notifications
          = s.notifications) := by
  refine ⟨?_, ?_, ?_, ?_, ?_, ?_, ?_, ?_, ?_, ?_, ?_, ?_, ?_, ?_, ?_, ?_, ?_, ?_⟩
  · simp [App.update, AppState.add_site, AppState.add_notification,
      trimNotifications_push_length _ _ h50]
  · simp [App.update, AppState.add_domain, AppState.add_notification, pureStep,
      trimNotifications_push_length _ _ h50]
  · simp [App.update, AppState.add_node, AppState.add_notification, pureStep,
      trimNotifications_push_length _ _ h50]
  · simp [App.update, AppState.remove_domain, AppState.add_notification, pureStep,
      trimNotifications_push_length _ _ h50]
  · simp [App.update, AppState.remove_node, AppState.add_notification, pureStep,
      trimNotifications_push_length _ _ h50]
  · simp [App.update]
  · intro hnone
    simp [App.update, hnone, pureStep]
  · intro hsome
    match hx : s.get_site i with
    | Option.none => exact absurd hx hsome
    | some x =>
      simp [App.update, hx, AppState.add_notification,
        trimNotifications_push_length _ _ h50]
  · intro hnone
    simp [App.update, hnone, pureStep]
  · intro hsome
    match hx : s.get_node i with
    | Option.none => exact absurd hx hsome
    | some x =>
      simp [App.update, hx, AppState.add_notification, pureStep,
        trimNotifications_push_length _ _ h50]
  · intro hnone
    simp [App.update, hnone, pureStep]
  · intro hsome
    match hx : s.get_domain i with
    | Option.none => exact absurd hx hsome
    | some x =>
      simp [App.update, hx, AppState.add_notification, pureStep,
        trimNotifications_push_length _ _ h50]
  · intro d hd hidx
    simp [App.update, hd, hidx, AppState.add_notification, pureStep,
      trimNotifications_push_length _ _ h50]
  · intro d hd hidx
    simp [App.update, hd, hidx, pureStep]
  · intro d hd hidx
    simp [App.update, hd, hidx, AppState.add_notification, pureStep,
      trimNotifications_push_length _ _ h50]
  · intro d hd hidx
    simp [App.update, hd, hidx, pureStep]
  · intro hnone
    simp [App.update, hnone, pureStep]
  · intro hnone
    simp [App.update, hnone, pureStep]

/-- C4 amended witness: the create-site intent on `baseState` appends one
notification while the delete-site intent appends none. -/
theorem C4_amended_notification_per_intent_witness :
    (App.update baseState (Action.CreateSite freshSite) testEnv).state.notifications.length
        = baseState.notifications.length + 1
    ∧ (App.update baseState (Action.DeleteSite 1) testEnv).state.notifications
        = baseState.notifications :=
  ⟨(C4_amended_notification_per_intent baseState testEnv freshSite baseDomain
      baseNode ⟨Option.none, DnsRecordType.A, "a", "1.2.3.4", 300, false⟩ 1 0
      (by decide)).1,
   (C4_amended_notification_per_intent baseState testEnv freshSite baseDomain
      baseNode ⟨Option.none, DnsRecordType.A, "a", "1.2.3.4", 300, false⟩ 1 0
      (by decide)).2.2.2.2.2.1⟩

/-- C5 counterexample: `c5State` holds exactly 50 notifications, and the
show-notification action pushes a 51st without evicting — the
`ShowNotification` arm of `update` is a raw `push_back` that bypasses the
50-cap enforced by `add_notification`, so the queue exceeds 50 entries. -/
theorem C5_counterexample_show_notification_bypasses_cap :
    c5State.notifications.length = 50
    ∧ (App.update c5State
        (Action.ShowNotification (Notification.mk "overflow" NotificationLevel.Info 50))
        testEnv).state.notifications.length = 51 := by
  decide

/-- Every sequence of `add_notification` calls starting from a queue of at
most 50 entries leaves exactly the (at most 50) most recent entries, in their
original relative order: the result is the concatenation with the oldest
entries dropped from the front, and the cap holds.  In particular 51 pushes
from an empty queue leave the 50 most recent and drop the 1st. -/
theorem runAddNotifications_notifications :
    ∀ (msgs : List (String × NotificationLevel × Nat)) (s : AppState),
      s.notifications.length ≤ 50 →
      (runAddNotifications s msgs).notifications
        = (s.notifications ++ msgs.map (fun m => Notification.mk m.1 m.2.1 m.2.2)).drop
            ((s.notifications.length + msgs.length) - 50)
      ∧ (runAddNotifications s msgs).notifications.length ≤ 50
  | [], s, h => by
    refine ⟨?_, ?_⟩
    · simp only [runAddNotifications, List.map_nil, List.append_nil, List.length_nil,
        Nat.add_zero]
      rw [show s.notifications.length - 50 = 0 from by omega, List.drop_zero]
    · simpa [runAddNotifications] using h
  | (m, lv, now) :: rest, s, h => by
    have hq1 : (s.add_notification m lv now).notifications
        = (s.notifications ++ [Notification.mk m lv now]).drop
            (s.notifications.length + 1 - 50) := by
      simp [AppState.add_notification, trimNotifications_eq_drop]
    have hl1 : (s.add_notification m lv now).notifications.length ≤ 50 := by
      rw [hq1]
      simp
      omega
    obtain ⟨ih1, ih2⟩ := runAddNotifications_notifications rest
      (s.add_notification m lv now) hl1
    have hlen1 : (s.add_notification m lv now).notifications.length
        = s.notifications.length + 1 - (s.notifications.length + 1 - 50) := by
      rw [hq1, List.length_drop]
      simp
    refine ⟨?_, ih2⟩
    show (runAddNotifications (s.add_notification m lv now) rest).notifications = _
    rw [ih1, hlen1, hq1]
    rw [← List.drop_append_of_le_length (by simp; omega)]
    rw [List.drop_drop]
    rw [show (s.notifications ++ [Notification.mk m lv now])
          ++ rest.map (fun m => Notification.mk m.1 m.2.1 m.2.2)
        = s.notifications ++ ((m, lv, now) :: rest).map
            (fun m => Notification.mk m.1 m.2.1 m.2.2) from by simp]
    congr 1
    simp only [List.length_cons]
    omega

/-- C5 amended: the 50-entry bound with oldest-first eviction holds for every
notification emitted through `add_notification` (all CRUD outcomes and
operation errors): any sequence of such pushes onto a queue of at most 50
entries keeps exactly the most recent entries in order, dropping the oldest,
and never exceeds 50 — in particular 51 pushes from empty leave the 50 most
recent with the 1st absent.  The show-notification action, however, bypasses
the cap (see the counterexample). -/
theorem C5_amended_cap_for_add_notification (s : AppState)
    (msgs : List (String × NotificationLevel × Nat))
    (h : s.notifications.length ≤ 50) :
    (runAddNotifications s msgs).notifications
      = (s.notifications ++ msgs.map (fun m => Notification.mk m.1 m.2.1 m.2.2)).drop
          ((s.notifications.length + msgs.length) - 50)
    ∧ (runAddNotifications s msgs).notifications.length ≤ 50 :=
  runAddNotifications_notifications msgs s h

/-- C5 amended witness: 51 `add_notification` pushes onto the empty queue of
`baseState` leave the 50 most recent entries (the first is dropped). -/
theorem C5_amended_cap_for_add_notification_witness :
    (runAddNotifications baseState fiftyOneMsgs).notifications
      = (baseState.notifications
          ++ fiftyOneMsgs.map (fun m => Notification.mk m.1 m.2.1 m.2.2)).drop
          ((baseState.notifications.length + fiftyOneMsgs.length) - 50)
    ∧ (runAddNotifications baseState fiftyOneMsgs).notifications.length ≤ 50 :=
  C5_amended_cap_for_add_notification baseState fiftyOneMsgs (by decide)

/-- C6 counterexample: `baseState` has unique ids, yet a create-site intent
carrying the already-present id 1 (`add_site` is an unconditional `Vec::push`
with no uniqueness check) leaves the sites collection with two entities of
id 1, violating uniqueness. -/
theorem C6_counterexample_duplicate_create_site :
    idsUnique baseState
    ∧ (App.update baseState (Action.CreateSite baseSite) testEnv).state.sites.map Site.id
        = [1, 1]
    ∧ ¬ idsUnique (App.update baseState (Action.CreateSite baseSite) testEnv).state := by
  decide

/-- C6 amended: CRUD intents preserve id-uniqueness of the three entity
collections only under the side conditions that every create intent carries
an id absent from its collection and every update intent's replacement entity
keeps the target id; without the former, a create duplicates the id (see the
counterexample).  Deletes, DNS-record intents, and updates/creates meeting
the side conditions never introduce a duplicate. -/
theorem C6_amended_crud_preserves_unique_ids (s : AppState) (a : Action)
    (env : UpdateEnv) (hu : idsUnique s) (hcrud : isCrudIntent a = true)
    (hsafe : crudSafe s a = true) :
    idsUnique (App.update s a env).state := by
  obtain ⟨hs, hd, hn⟩ := hu
  cases a
  all_goals try simp [isCrudIntent] at hcrud
  case CreateSite site =>
    simp only [crudSafe, List.elem_eq_mem, Bool.not_eq_eq_eq_not, Bool.not_true,
      decide_eq_false_iff_not] at hsafe
    refine ⟨?_, hd, hn⟩
    simp only [App.update, AppState.add_site, AppState.add_notification,
      List.map_append, List.map_cons, List.map_nil]
    exact nodup_push _ _ hs hsafe
  case UpdateSite site_id site =>
    simp only [crudSafe, beq_iff_eq] at hsafe
    cases hx : s.get_site site_id with
    | none =>
      simp only [App.update, hx, pureStep]
      exact ⟨hs, hd, hn⟩
    | some x =>
      simp only [App.update, hx, AppState.add_notification]
      refine ⟨?_, hd, hn⟩
      exact nodup_map_updateFirst Site.id (fun x => x.id == site_id)
        (fun _ => site)
        (fun y hy => by
          show site.id = y.id
          simp only [beq_iff_eq] at hy
          rw [hsafe, hy]) s.sites hs
  case DeleteSite site_id =>
    exact ⟨hs, hd, hn⟩
  case CreateDomain domain =>
    simp only [crudSafe, List.elem_eq_mem, Bool.not_eq_eq_eq_not, Bool.not_true,
      decide_eq_false_iff_not] at hsafe
    refine ⟨hs, ?_, hn⟩
    simp only [App.update, AppState.add_domain, AppState.add_notification, pureStep,
      List.map_append, List.map_cons, List.map_nil]
    exact nodup_push _ _ hd hsafe
  case DeleteDomain domain_id =>
    refine ⟨hs, ?_, hn⟩
    simp only [App.update, AppState.remove_domain, AppState.add_notification, pureStep]
    exact nodup_map_filter _ _ _ hd
  case AddDnsRecord domain_id record =>
    cases hx : s.get_domain domain_id with
    | none =>
      simp only [App.update, hx, pureStep]
      exact ⟨hs, hd, hn⟩
    | some x =>
      simp only [App.update, hx, AppState.add_notification, pureStep]
      refine ⟨hs, ?_, hn⟩
      exact nodup_map_updateFirst Domain.id (fun x => x.id == domain_id)
        (fun domain => { domain with dns_records := domain.dns_records ++ [record] })
        (fun y hy => rfl) s.domains hd
  case UpdateDnsRecord domain_id index record =>
    cases hx : s.get_domain domain_id with
    | none =>
      simp only [App.update, hx, pureStep]
      exact ⟨hs, hd, hn⟩
    | some x =>
      by_cases hidx : index < x.dns_records.length
      · simp only [App.update, hx, hidx, if_true, AppState.add_notification, pureStep]
        refine ⟨hs, ?_, hn⟩
        exact nodup_map_updateFirst Domain.id (fun x => x.id == domain_id)
          (fun d => { d with dns_records := d.dns_records.set index record })
          (fun y hy => rfl) s.domains hd
      · simp only [App.update, hx, hidx, if_false, pureStep]
        exact ⟨hs, hd, hn⟩
  case DeleteDnsRecord domain_id index =>
    cases hx : s.get_domain domain_id with
    | none =>
      simp only [App.update, hx, pureStep]
      exact ⟨hs, hd, hn⟩
    | some x =>
      by_cases hidx : index < x.dns_records.length
      · simp only [App.update, hx, hidx, if_true, AppState.add_notification, pureStep]
        refine ⟨hs, ?_, hn⟩
        exact nodup_map_updateFirst Domain.id (fun x => x.id == domain_id)
          (fun d => { d with dns_records := d.dns_records.eraseIdx index })
          (fun y hy => rfl) s.domains hd
      · simp only [App.update, hx, hidx, if_false, pureStep]
        exact ⟨hs, hd, hn⟩
  case AddNode node =>
    simp only [crudSafe, List.elem_eq_mem, Bool.not_eq_eq_eq_not, Bool.not_true,
      decide_eq_false_iff_not] at hsafe
    refine ⟨hs, hd, ?_⟩
    simp only [App.update, AppState.add_node, AppState.add_notification, pureStep,
      List.map_append, List.map_cons, List.map_nil]
    exact nodup_push _ _ hn hsafe
  case UpdateNode node_id node =>
    simp only [crudSafe, beq_iff_eq] at hsafe
    cases hx : s.get_node node_id with
    | none =>
      simp only [App.update, hx, pureStep]
      exact ⟨hs, hd, hn⟩
    | some x =>
      simp only [App.update, hx, AppState.add_notification, pureStep]
      refine ⟨hs, hd, ?_⟩
      exact nodup_map_updateFirst Node.id (fun x => x.id == node_id)
        (fun _ => node)
        (fun y hy => by
          show node.id = y.id
          simp only [beq_iff_eq] at hy
          rw [hsafe, hy]) s.nodes hn
  case RemoveNode node_id =>
    refine ⟨hs, hd, ?_⟩
    simp only [App.update, AppState.remove_node, AppState.add_notification, pureStep]
    exact nodup_map_filter _ _ _ hn

/-- C6 amended witness: creating a site with the fresh id 5 on `baseState`
keeps all three collections duplicate-free. -/
theorem C6_amended_crud_preserves_unique_ids_witness :
    idsUnique (App.update baseState (Action.CreateSite freshSite) testEnv).state :=
  C6_amended_crud_preserves_unique_ids baseState (Action.CreateSite freshSite)
    testEnv (by decide) (by decide) (by decide)

/-- One select-next on a non-empty sites list advances the cursor by one,
modulo the list length, and changes nothing else. -/
theorem selectNext_sites_step (s : AppState) (env : UpdateEnv)
    (hscreen : s.current_screen = Screen.SitesList) (hne : s.sites ≠ []) :
    (App.update s Action.SelectNext env).state
      = { s with selection_state := { s.selection_state with
          sites_list_index :=
            (s.selection_state.sites_list_index + 1) % s.sites.length } } := by
  have hempty : s.sites.isEmpty = false := by
    cases hs : s.sites
    · exact absurd hs hne
    · rfl
  simp [App.update, hscreen, hempty, pureStep]

/-- One select-next on a non-empty domains list advances the cursor by one
modulo the list length. -/
theorem selectNext_domains_step (s : AppState) (env : UpdateEnv)
    (hscreen : s.current_screen = Screen.DomainsList) (hne : s.domains ≠ []) :
    (App.update s Action.SelectNext env).state
      = { s with selection_state := { s.selection_state with
          domains_list_index :=
            (s.selection_state.domains_list_index + 1) % s.domains.length } } := by
  have hempty : s.domains.isEmpty = false := by
    cases hs : s.domains
    · exact absurd hs hne
    · rfl
  simp [App.update, hscreen, hempty, pureStep]

/-- One select-next on a non-empty nodes list advances the cursor by one
modulo the list length. -/
theorem selectNext_nodes_step (s : AppState) (env : UpdateEnv)
    (hscreen : s.current_screen = Screen.NodesList) (hne : s.nodes ≠ []) :
    (App.update s Action.SelectNext env).state
      = { s with selection_state := { s.selection_state with
          nodes_list_index :=
            (s.selection_state.nodes_list_index + 1) % s.nodes.length } } := by
  have hempty : s.nodes.isEmpty = false := by
    cases hs : s.nodes
    · exact absurd hs hne
    · rfl
  simp [App.update, hscreen, hempty, pureStep]

/-- N select-next intents on a non-empty sites list advance the cursor by N
modulo the list length. -/
theorem selectNext_sites_iter (env : UpdateEnv) :
    ∀ (N : Nat) (s : AppState), s.current_screen = Screen.SitesList →
      s.sites ≠ [] →
      s.selection_state.sites_list_index < s.sites.length →
      (runActions env s (List.replicate N Action.SelectNext)).selection_state.sites_list_index
        = (s.selection_state.sites_list_index + N) % s.sites.length
  | 0, s, hscreen, hne, hlt => by
      simp [runActions, Nat.mod_eq_of_lt hlt]
  | N + 1, s, hscreen, hne, hlt => by
      have hstep := selectNext_sites_step s env hscreen hne
      have hscreen2 : (App.update s Action.SelectNext env).state.current_screen
          = Screen.SitesList := by
        rw [hstep]
        exact hscreen
      have hne2 : (App.update s Action.SelectNext env).state.sites ≠ [] := by
        rw [hstep]
        exact hne
      have hidx2 : (App.update s Action.SelectNext env).state.selection_state.sites_list_index
          = (s.selection_state.sites_list_index + 1) % s.sites.length := by
        rw [hstep]
      have hlen2 : (App.update s Action.SelectNext env).state.sites.length
          = s.sites.length := by
        rw [hstep]
      have hlt2 : (App.update s Action.SelectNext env).state.selection_state.sites_list_index
          < (App.update s Action.SelectNext env).state.sites.length := by
        rw [hidx2, hlen2]
        exact Nat.mod_lt _ (List.length_pos.mpr hne)
      have ih := selectNext_sites_iter env N (App.update s Action.SelectNext env).state
        hscreen2 hne2 hlt2
      rw [List.replicate_succ]
      simp only [runActions]
      rw [ih, hidx2, hlen2, Nat.mod_add_mod]
      congr 1
      omega

/-- N select-next intents on a non-empty domains list advance the cursor by N
modulo the list length. -/
theorem selectNext_domains_iter (env : UpdateEnv) :
    ∀ (N : Nat) (s : AppState), s.current_screen = Screen.DomainsList →
      s.domains ≠ [] →
      s.selection_state.domains_list_index < s.domains.length →
      (runActions env s (List.replicate N Action.SelectNext)).selection_state.domains_list_index
        = (s.selection_state.domains_list_index + N) % s.domains.length
  | 0, s, hscreen, hne, hlt => by
      simp [runActions, Nat.mod_eq_of_lt hlt]
  | N + 1, s, hscreen, hne, hlt => by
      have hstep := selectNext_domains_step s env hscreen hne
      have hscreen2 : (App.update s Action.SelectNext env).state.current_screen
          = Screen.DomainsList := by
        rw [hstep]
        exact hscreen
      have hne2 : (App.update s Action.SelectNext env).state.domains ≠ [] := by
        rw [hstep]
        exact hne
      have hidx2 : (App.update s Action.SelectNext env).state.selection_state.domains_list_index
          = (s.selection_state.domains_list_index + 1) % s.domains.length := by
        rw [hstep]
      have hlen2 : (App.update s Action.SelectNext env).state.domains.length
          = s.domains.length := by
        rw [hstep]
      have hlt2 : (App.update s Action.SelectNext env).state.selection_state.domains_list_index
          < (App.update s Action.SelectNext env).state.domains.length := by
        rw [hidx2, hlen2]
        exact Nat.mod_lt _ (List.length_pos.mpr hne)
      have ih := selectNext_domains_iter env N (App.update s Action.SelectNext env).state
        hscreen2 hne2 hlt2
      rw [List.replicate_succ]
      simp only [runActions]
      rw [ih, hidx2, hlen2, Nat.mod_add_mod]
      congr 1
      omega

/-- N select-next intents on a non-empty nodes list advance the cursor by N
modulo the list length. -/
theorem selectNext_nodes_iter (env : UpdateEnv) :
    ∀ (N : Nat) (s : AppState), s.current_screen = Screen.NodesList →
      s.nodes ≠ [] →
      s.selection_state.nodes_list_index < s.nodes.length →
      (runActions env s (List.replicate N Action.SelectNext)).selection_state.nodes_list_index
        = (s.selection_state.nodes_list_index + N) % s.nodes.length
  | 0, s, hscreen, hne, hlt => by
      simp [runActions, Nat.mod_eq_of_lt hlt]
  | N + 1, s, hscreen, hne, hlt => by
      have hstep := selectNext_nodes_step s env hscreen hne
      have hscreen2 : (App.update s Action.SelectNext env).state.current_screen
          = Screen.NodesList := by
        rw [hstep]
        exact hscreen
      have hne2 : (App.update s Action.SelectNext env).state.nodes ≠ [] := by
        rw [hstep]
        exact hne
      have hidx2 : (App.update s Action.SelectNext env).state.selection_state.nodes_list_index
          = (s.selection_state.nodes_list_index + 1) % s.nodes.length := by
        rw [hstep]
      have hlen2 : (App.update s Action.SelectNext env).state.nodes.length
          = s.nodes.length := by
        rw [hstep]
      have hlt2 : (App.update s Action.SelectNext env).state.selection_state.nodes_list_index
          < (App.update s Action.SelectNext env).state.nodes.length := by
        rw [hidx2, hlen2]
        exact Nat.mod_lt _ (List.length_pos.mpr hne)
      have ih := selectNext_nodes_iter env N (App.update s Action.SelectNext env).state
        hscreen2 hne2 hlt2
      rw [List.replicate_succ]
      simp only [runActions]
      rw [ih, hidx2, hlen2, Nat.mod_add_mod]
      congr 1
      omega

/-- C7: on each list screen with a non-empty list, N select-next intents from
cursor 0 leave the cursor at N mod L (wraparound modulo the collection
length); on an empty list, select-next and select-previous are complete
no-ops (state unchanged, nothing spawned). -/
theorem C7_selection_wraparound (s : AppState) (N : Nat) (env : UpdateEnv) :
    (s.current_screen = Screen.SitesList → s.sites ≠ [] →
      s.selection_state.sites_list_index = 0 →
      (runActions env s (List.replicate N Action.SelectNext)).selection_state.sites_list_index
        = N % s.sites.length)
    ∧ (s.current_screen = Screen.DomainsList → s.domains ≠ [] →
      s.selection_state.domains_list_index = 0 →
      (runActions env s (List.replicate N Action.SelectNext)).selection_state.domains_list_index
        = N % s.domains.length)
    ∧ (s.current_screen = Screen.NodesList → s.nodes ≠ [] →
      s.selection_state.nodes_list_index = 0 →
      (runActions env s (List.replicate N Action.SelectNext)).selection_state.nodes_list_index
        = N % s.nodes.length)
    ∧ (s.current_screen = Screen.SitesList → s.sites = [] →
      App.update s Action.SelectNext env = pureStep s
      ∧ App.update s Action.SelectPrevious env = pureStep s)
    ∧ (s.current_screen = Screen.DomainsList → s.domains = [] →
      App.update s Action.SelectNext env = pureStep s
      ∧ App.update s Action.SelectPrevious env = pureStep s)
    ∧ (s.current_screen = Screen.NodesList → s.nodes = [] →
      App.update s Action.SelectNext env = pureStep s
      ∧ App.update s Action.SelectPrevious env = pureStep s) := by
  refine ⟨?_, ?_, ?_, ?_, ?_, ?_⟩
  · intro hscreen hne hidx
    rw [selectNext_sites_iter env N s hscreen hne
      (by rw [hidx]; exact List.length_pos.mpr hne), hidx, Nat.zero_add]
  · intro hscreen hne hidx
    rw [selectNext_domains_iter env N s hscreen hne
      (by rw [hidx]; exact List.length_pos.mpr hne), hidx, Nat.zero_add]
  · intro hscreen hne hidx
    rw [selectNext_nodes_iter env N s hscreen hne
      (by rw [hidx]; exact List.length_pos.mpr hne), hidx, Nat.zero_add]
  · intro hscreen hempty
    constructor <;> simp [App.update, hscreen, hempty, pureStep]
  · intro hscreen hempty
    constructor <;> simp [App.update, hscreen, hempty, pureStep]
  · intro hscreen hempty
    constructor <;> simp [App.update, hscreen, hempty, pureStep]

/-- C7 witness: three select-next intents on the two-site list of `c7State`
(cursor initially 0) leave the cursor at 3 mod 2 = 1, and on the empty
domains list of `c7EmptyState` both selection intents are no-ops. -/
theorem C7_selection_wraparound_witness :
    (runActions testEnv c7State (List.replicate 3 Action.SelectNext)).selection_state.sites_list_index
        = 3 % c7State.sites.length
    ∧ (App.update c7EmptyState Action.SelectNext testEnv = pureStep c7EmptyState
      ∧ App.update c7EmptyState Action.SelectPrevious testEnv = pureStep c7EmptyState) :=
  ⟨(C7_selection_wraparound c7State 3 testEnv).1 rfl (by decide) rfl,
   (C7_selection_wraparound c7EmptyState 3 testEnv).2.2.2.2.1 rfl rfl⟩

/-- C8: saving the inventory (`AppState::save` builds the `ArchonConfig`,
`save_config` writes it) and loading it back (`load_config` then
`AppState::new`) reproduces the sites, domains and nodes collections
field-for-field with element order preserved, on any starting disk and
path.  The TOML encode/decode transport is modelled as a faithful
path-indexed store (spec section 6 external collaborator). -/
theorem C8_save_load_round_trip (s : AppState) (disk : Disk) (path : Nat) :
    (AppState.fromConfig path
        (load_config (save_config disk path s.save) path).1).sites = s.sites
    ∧ (AppState.fromConfig path
        (load_config (save_config disk path s.save) path).1).domains = s.domains
    ∧ (AppState.fromConfig path
        (load_config (save_config disk path s.save) path).1).nodes = s.nodes := by
  simp [load_config, save_config, AppState.fromConfig, AppState.save]

end Archon




